import Mathlib

/-!
Shallow embedding of the devopsai-chatbox repository: the keyword router and
agent registry of `src/agents/devops_agents.py`, and the chat server of
`src/chatbot/main.py` (conversation store, per-agent completion histories,
chat and clear-session endpoints), together with the chat-history
repository's best-effort durable delete (`src/database/chat_repository.py`).
-/

namespace DevopsChatbox

/-- Python `str.lower` on one character, restricted to the ASCII letters
(every registry keyword and agent id is ASCII). -/
def pyLowerChar (c : Char) : Char :=
  if 65 <= c.toNat && c.toNat <= 90 then Char.ofNat (c.toNat + 32) else c

/-- Python `str.lower` on a string, as its list of code points. -/
def pyLower (s : String) : String :=
  String.mk (s.data.map pyLowerChar)

/-- Python `needle in hay` (substring containment) on code-point lists. -/
def subIn : List Char → List Char → Bool
  | n, [] => n.isEmpty
  | n, c :: t => n.isPrefixOf (c :: t) || subIn n t

/-- Whitespace characters recognised by Python `str.split()` (ASCII range). -/
def isPySpace (c : Char) : Bool :=
  c == ' ' || c == '\t' || c == '\n' || c == '\r' || c == '\x0b' || c == '\x0c'

/-- Python `s.split()`: split on whitespace runs, dropping empty pieces. -/
def pySplitWs (l : List Char) : List (List Char) :=
  (l.splitOnP isPySpace).filter (fun w => !w.isEmpty)

/-- One entry of `DEVOPS_AGENT_CONFIGS` (src/agents/devops_agents.py),
restricted to the fields the routing logic and the chat pipeline read: the
display name and the keyword list.  (Each entry also carries `icon`,
`category` and `prompt` keys; the prompt field is modelled separately by
`applyResponseEnhancement`.) -/
structure AgentConfig where
  name : String
  keywords : List String
deriving DecidableEq

def DEVOPS_AGENT_CONFIGS : List (String × AgentConfig) := [
  ("prometheus", { name := "PrometheusAgent", keywords := ["prometheus", "promql", "metrics", "scrape", "target", "exporter", "node_exporter", "blackbox", "pushgateway", "recording rule", "federation", "remote write", "remote read", "tsdb", "retention"] }),
  ("grafana", { name := "GrafanaAgent", keywords := ["grafana", "dashboard", "panel", "visualization", "graph", "stat", "gauge", "table", "heatmap", "variable", "template", "annotation", "alert", "notification", "datasource", "provisioning", "grafana cloud"] }),
  ("alertmanager", { name := "AlertManagerAgent", keywords := ["alertmanager", "alert", "routing", "receiver", "silence", "inhibit", "group", "notification", "slack", "pagerduty", "email", "webhook", "amtool", "template"] }),
  ("loki", { name := "LokiAgent", keywords := ["loki", "log", "logql", "promtail", "label", "stream", "chunk", "retention", "compactor", "ingester", "querier", "distributor"] }),
  ("jaeger", { name := "JaegerAgent", keywords := ["jaeger", "trace", "span", "tracing", "distributed tracing", "opentracing", "zipkin", "sampling", "collector", "agent", "query"] }),
  ("tempo", { name := "TempoAgent", keywords := ["tempo", "grafana tempo", "trace", "tracing", "span", "otlp", "trace id", "backend", "parquet"] }),
  ("thanos", { name := "ThanosAgent", keywords := ["thanos", "prometheus ha", "long term storage", "global view", "sidecar", "store", "query", "compactor", "ruler", "receive"] }),
  ("elasticsearch", { name := "ElasticsearchAgent", keywords := ["elasticsearch", "elastic", "es", "index", "shard", "replica", "mapping", "analyzer", "query dsl", "aggregation", "cluster", "node", "ilm", "snapshot"] }),
  ("kibana", { name := "KibanaAgent", keywords := ["kibana", "discover", "visualize", "dashboard", "lens", "canvas", "saved search", "index pattern", "kql", "space", "reporting"] }),
  ("jenkins", { name := "JenkinsAgent", keywords := ["jenkins", "pipeline", "jenkinsfile", "declarative", "scripted", "stage", "step", "agent", "node", "build", "plugin", "shared library", "credentials", "blue ocean", "job dsl"] }),
  ("argocd", { name := "ArgoCDAgent", keywords := ["argocd", "argo", "gitops", "application", "sync", "rollback", "app of apps", "applicationset", "project", "repository", "manifest", "kustomize", "helm"] }),
  ("sonarqube", { name := "SonarQubeAgent", keywords := ["sonarqube", "sonar", "code quality", "static analysis", "coverage", "bug", "vulnerability", "code smell", "technical debt", "quality gate", "scanner"] }),
  ("docker", { name := "DockerAgent", keywords := ["docker", "dockerfile", "container", "image", "build", "push", "pull", "run", "compose", "volume", "network", "registry", "multi-stage", "layer", "cache"] }),
  ("kubernetes", { name := "KubernetesAgent", keywords := ["kubernetes", "k8s", "kubectl", "pod", "deployment", "service", "ingress", "configmap", "secret", "pvc", "statefulset", "daemonset", "job", "cronjob", "hpa", "namespace", "rbac", "helm", "kustomize"] }),
  ("harbor", { name := "HarborAgent", keywords := ["harbor", "registry", "image", "repository", "vulnerability", "scan", "replication", "retention", "project", "robot account"] }),
  ("keycloak", { name := "KeycloakAgent", keywords := ["keycloak", "oidc", "oauth", "sso", "realm", "client", "user", "role", "identity", "authentication", "authorization", "federation", "saml", "ldap"] }),
  ("vault", { name := "VaultAgent", keywords := ["vault", "hashicorp", "secret", "kv", "pki", "transit", "auth", "policy", "token", "seal", "unseal", "dynamic secret"] }),
  ("trivy", { name := "TrivyAgent", keywords := ["trivy", "vulnerability", "scan", "cve", "sbom", "container scan", "filesystem scan", "iac scan", "license", "secret scan"] }),
  ("falco", { name := "FalcoAgent", keywords := ["falco", "runtime security", "syscall", "rule", "alert", "container security", "kubernetes security", "threat detection"] }),
  ("kyverno", { name := "KyvernoAgent", keywords := ["kyverno", "policy", "admission controller", "validate", "mutate", "generate", "kubernetes policy", "pod security"] }),
  ("cert_manager", { name := "CertManagerAgent", keywords := ["cert-manager", "certificate", "issuer", "acme", "letsencrypt", "tls", "ssl", "ca", "clusterissuer", "certificate request"] }),
  ("stackstorm", { name := "StackStormAgent", keywords := ["stackstorm", "st2", "action", "workflow", "rule", "trigger", "pack", "sensor", "event-driven", "runbook", "automation"] }),
  ("n8n", { name := "N8nAgent", keywords := ["n8n", "workflow", "automation", "integration", "node", "webhook", "trigger", "api", "no-code", "low-code"] }),
  ("neo4j", { name := "Neo4jAgent", keywords := ["neo4j", "graph", "cypher", "node", "relationship", "label", "property", "pattern", "apoc", "gds"] }),
  ("redis", { name := "RedisAgent", keywords := ["redis", "cache", "key-value", "pub/sub", "stream", "cluster", "sentinel", "lua", "jedis", "lettuce"] }),
  ("rabbitmq", { name := "RabbitMQAgent", keywords := ["rabbitmq", "amqp", "queue", "exchange", "binding", "message", "consumer", "producer", "dlq", "dead letter"] }),
  ("mysql", { name := "MySQLAgent", keywords := ["mysql", "mariadb", "sql", "query", "index", "replication", "backup", "innodb", "stored procedure"] }),
  ("postgresql", { name := "PostgreSQLAgent", keywords := ["postgresql", "postgres", "pg", "sql", "plpgsql", "vacuum", "replication", "extension", "jsonb", "citus"] }),
  ("redmine", { name := "RedmineAgent", keywords := ["redmine", "issue", "tracker", "project", "ticket", "gantt", "wiki", "repository", "time tracking"] }),
  ("pagerduty", { name := "PagerDutyAgent", keywords := ["pagerduty", "incident", "alert", "oncall", "escalation", "service", "integration", "schedule"] }),
  ("statuspage", { name := "StatusPageAgent", keywords := ["statuspage", "cachet", "status", "incident", "component", "maintenance", "uptime", "subscriber"] }),
  ("velero", { name := "VeleroAgent", keywords := ["velero", "backup", "restore", "disaster recovery", "migration", "kubernetes backup", "snapshot", "restic"] }),
  ("external_dns", { name := "ExternalDNSAgent", keywords := ["external-dns", "dns", "route53", "cloudflare", "azure dns", "google dns", "ingress dns", "service dns"] }),
  ("goldilocks", { name := "GoldilocksAgent", keywords := ["goldilocks", "vpa", "vertical pod autoscaler", "resource", "recommendation", "right-sizing", "cpu", "memory"] }),
  ("chaos_mesh", { name := "ChaosMeshAgent", keywords := ["chaos mesh", "chaos engineering", "fault injection", "pod chaos", "network chaos", "io chaos", "stress test"] }),
  ("email", { name := "EmailAgent", keywords := ["email", "smtp", "sendgrid", "ses", "mailgun", "notification", "template", "transactional"] }),
  ("slack", { name := "SlackAgent", keywords := ["slack", "webhook", "bot", "message", "channel", "block kit", "interactive", "slash command"] }),
  ("teams", { name := "TeamsAgent", keywords := ["teams", "microsoft teams", "webhook", "connector", "adaptive card", "bot", "notification"] }),
  ("chatbot", { name := "ChatbotAgent", keywords := ["chatbot", "conversational", "nlp", "intent", "dialog", "customer support", "faq", "ai assistant"] }),
  ("code_analysis", { name := "CodeAnalysisAgent", keywords := ["code", "codebase", "analysis", "review", "refactor", "search", "dependency", "architecture", "documentation"] }),
  ("git", { name := "GitAgent", keywords := ["git", "github", "gitlab", "bitbucket", "branch", "merge", "commit", "pull request", "pr", "rebase", "cherry-pick"] }),
  ("general", { name := "GeneralDevOpsAgent", keywords := [] })]

def CHATGPT_STYLE_RESPONSE_INSTRUCTIONS : String :=
  "\n" ++
  "\n" ++
  "---\n" ++
  "\n" ++
  "## 📋 RESPONSE FORMAT GUIDELINES\n" ++
  "\n" ++
  "When responding to questions, ALWAYS structure your answers with the following sections:\n" ++
  "\n" ++
  "### 📖 Explanation\n" ++
  "- Start with a clear, concise explanation of the concept or solution\n" ++
  "- Explain WHY this approach is recommended\n" ++
  "- Describe when and where to use this (use cases)\n" ++
  "- Mention any prerequisites or dependencies\n" ++
  "\n" ++
  "### 💻 Example\n" ++
  "- Provide practical, working code or configuration examples\n" ++
  "- Use proper syntax highlighting with markdown code blocks\n" ++
  "- Include comments in the code explaining key parts\n" ++
  "- Show complete, copy-paste ready snippets when possible\n" ++
  "\n" ++
  "```yaml\n" ++
  "# Example format for YAML configurations\n" ++
  "key: value\n" ++
  "nested:\n" ++
  "  setting: example\n" ++
  "```\n" ++
  "\n" ++
  "```python\n" ++
  "# Example format for Python code\n" ++
  "def example_function():\n" ++
  "    '''Docstring explaining the function'''\n" ++
  "    pass\n" ++
  "```\n" ++
  "\n" ++
  "### 🔗 References\n" ++
  "- Include links to official documentation\n" ++
  "- Reference related tools or concepts\n" ++
  "- Suggest further reading materials\n" ++
  "- Format: [Documentation Name](URL)\n" ++
  "\n" ++
  "### ⚙️ Configuration Details\n" ++
  "- Show relevant configuration options\n" ++
  "- Explain important parameters and their values\n" ++
  "- Include default values where applicable\n" ++
  "- Highlight security-sensitive settings\n" ++
  "\n" ++
  "### ⚠️ Best Practices & Warnings\n" ++
  "- List common pitfalls to avoid\n" ++
  "- Include security considerations\n" ++
  "- Mention performance implications\n" ++
  "- Suggest monitoring/logging recommendations\n" ++
  "\n" ++
  "### 🔄 Related Topics (Optional)\n" ++
  "- Suggest related concepts the user might want to explore\n" ++
  "- Link to other agents that could help with related topics\n" ++
  "\n" ++
  "---\n" ++
  "\n" ++
  "**Formatting Rules:**\n" ++
  "1. Always use markdown formatting with proper headings (##, ###)\n" ++
  "2. Use code blocks with language tags (```yaml, ```python, ```bash, etc.)\n" ++
  "3. Use bullet points and numbered lists for clarity\n" ++
  "4. Use bold (**text**) for emphasis on important terms\n" ++
  "5. Use tables for comparing options when appropriate\n" ++
  "6. Keep explanations concise but comprehensive\n" ++
  "7. Structure responses for easy scanning and readability\n" ++
  "\n" ++
  ""

/-- Keyword score of one agent for the lowercased query, from the body of
`get_agent_for_query`: a weight of 2 per keyword occurring anywhere as a
substring of the lowercased query, plus a bonus of 3 per keyword equal to
one of the whitespace-split tokens of the query. -/
def scoreOf (cfg : AgentConfig) (query_lower : String) : Nat :=
  (cfg.keywords.map (fun kw => if subIn kw.data query_lower.data then 2 else 0)).sum
    + (cfg.keywords.map
        (fun kw => if (pySplitWs query_lower.data).contains kw.data then 3 else 0)).sum

/-- The `scores` dict built by `get_agent_for_query`, in insertion order: the
non-"general" agents whose score is positive, with their scores. -/
def buildScores : List (String × AgentConfig) → String → List (String × Nat)
  | [], _ => []
  | (aid, cfg) :: rest, ql =>
    if aid = "general" then buildScores rest ql
    else if 0 < scoreOf cfg ql then (aid, scoreOf cfg ql) :: buildScores rest ql
    else buildScores rest ql

/-- Helper for `pyMaxKey`: fold keeping the current best key, replaced only on
a strictly greater value (Python `max` keeps the first of equals). -/
def pyMaxKeyAux (bk : String) (bv : Nat) : List (String × Nat) → String
  | [] => bk
  | (k, v) :: rest => if bv < v then pyMaxKeyAux k v rest else pyMaxKeyAux bk bv rest

/-- Python `max(scores, key=scores.get)` over an insertion-ordered dict: the
first key whose value is maximal, `none` on an empty dict. -/
def pyMaxKey : List (String × Nat) → Option String
  | [] => none
  | (k, v) :: rest => some (pyMaxKeyAux k v rest)

/-- Shallow embedding of `get_agent_for_query` (src/agents/devops_agents.py
lines 2405-2423): lowercase the query, score every non-"general" agent, keep
the positive scores, return the first best scorer, or "general" when no agent
scores above zero. -/
def get_agent_for_query (query : String) : String :=
  let query_lower := pyLower query
  match pyMaxKey (buildScores DEVOPS_AGENT_CONFIGS query_lower) with
  | some aid => aid
  | none => "general"


/-- Lookup in a Python dict modelled as an insertion-ordered association
list (first binding wins; a well-formed dict has distinct keys). -/
def dget {α : Type} : List (String × α) → String → Option α
  | [], _ => none
  | (k2, v) :: rest, k => if k2 = k then some v else dget rest k

/-- Python `k in dict`. -/
def dhas {α : Type} (d : List (String × α)) (k : String) : Bool :=
  (dget d k).isSome

/-- Python `dict[k] = v`: update the existing binding in place, else append
the new binding at the end (insertion order is preserved). -/
def dset {α : Type} : List (String × α) → String → α → List (String × α)
  | [], k, v => [(k, v)]
  | (k2, v2) :: rest, k, v =>
    if k2 = k then (k, v) :: rest else (k2, v2) :: dset rest k v

/-- Shallow embedding of `get_agent_config` (src/agents/devops_agents.py
lines 2426-2428): `DEVOPS_AGENT_CONFIGS.get(agent_id,
DEVOPS_AGENT_CONFIGS["general"])`.  The "general" entry is present in the
registry, so the `getD` default below is never reached. -/
def generalConfig : AgentConfig :=
  (dget DEVOPS_AGENT_CONFIGS "general").getD { name := "", keywords := [] }

/-- Registry lookup with fallback to the "general" agent, never a not-found
result: `get_agent_config` of src/agents/devops_agents.py. -/
def get_agent_config (agent_id : String) : AgentConfig :=
  (dget DEVOPS_AGENT_CONFIGS agent_id).getD generalConfig

/-- Shallow embedding of the `/api/agents/{agent_id}` endpoint `get_agent`
(src/chatbot/main.py lines 367-380): it calls `get_agent_config` and answers
404 "Agent not found" only when the returned config is falsy.
`get_agent_config` always returns a non-empty agent dict (a registry entry or
the "general" fallback), so the 404 branch is dead code; the truthiness test
`if not config` is modelled as a test that the lookup with fallback produced
no config at all, which never happens. -/
def get_agent_endpoint (agent_id : String) : Except Nat (String × String) :=
  let config? := some (get_agent_config agent_id)
  match config? with
  | none => Except.error 404
  | some config => Except.ok (agent_id, config.name)

/-- One message of a session's in-memory conversation history
(`state.conversations[session_id]` in src/chatbot/main.py): user messages
carry no `agent_id` key, assistant messages carry the routed agent id. -/
structure Msg where
  role : String
  content : String
  agentId : Option String
  timestamp : String
deriving DecidableEq

/-- One turn of a per-agent completion history
(`state.agent_histories[agent_id]`), as passed to the completion backend. -/
structure HistMsg where
  role : String
  content : String
deriving DecidableEq

/-- The in-memory state of the chat server (class `ChatState` of
src/chatbot/main.py) restricted to what the chat and clear endpoints read and
write: the per-session conversations, the backend configuration produced by
`_init_agents` (in API mode, `agent_instances` holds every registry id and
`agent_histories` exists, one history per agent id; in demo mode
`agent_instances` is empty and the `agent_histories` attribute is absent,
modelled as `none`), and the `db_enabled` flag. -/
structure ChatState where
  conversations : List (String × List Msg)
  agent_instances : List String
  agent_histories : Option (List (String × List HistMsg))
  db_enabled : Bool
deriving DecidableEq

/-- The request body of `/api/chat` (`ChatMessage` of src/chatbot/main.py):
`force_agent` is `None` or a string (Python truthiness makes `""` fall
through to auto-routing exactly as `None` does). -/
structure ChatMessageR where
  message : String
  session_id : String
  force_agent : Option String
deriving DecidableEq

/-- The response of `/api/chat` (`ChatResponse` of src/chatbot/main.py),
without the wall-clock timestamp fields that the claims do not mention. -/
structure ChatResponseR where
  response : String
  agent_id : String
  agent_name : String
  session_id : String
deriving DecidableEq

/-- Agent selection at the top of `chat` (src/chatbot/main.py lines 383-387):
`if message.force_agent and message.force_agent in DEVOPS_AGENT_CONFIGS`
takes the forced id, otherwise keyword routing decides. -/
def routeAgent (force_agent : Option String) (message : String) : String :=
  match force_agent with
  | some f => if f ≠ "" && dhas DEVOPS_AGENT_CONFIGS f then f else get_agent_for_query message
  | none => get_agent_for_query message

/-- Function `get_or_create_conversation` of `ChatState`
(src/chatbot/main.py): return the stored history, creating an empty one on a
miss.  (With the database enabled a miss would first reload the same
session's persisted mirror, keyed by the same `session_id`; that per-session
reload is outside the modelled in-memory state.) -/
def get_or_create_conversation (st : ChatState) (session_id : String) :
    List Msg × ChatState :=
  match dget st.conversations session_id with
  | some c => (c, st)
  | none => ([], { st with conversations := dset st.conversations session_id [] })

/-- The `messages` list that `chat` passes to the completion backend on a
request: the stored per-agent history plus the new user turn (with the file
context folded into the user content when present).  `none` when the demo
branch is taken and no backend call is made.  This mirrors the code up to the
`state.anthropic_client.messages.create(...)` call site. -/
def backendMessagesFor (st : ChatState) (msg : ChatMessageR)
    (file_context : String) : Option (List HistMsg) :=
  let agent_id := routeAgent msg.force_agent msg.message
  if st.agent_instances.contains agent_id then
    match st.agent_histories with
    | some hists =>
      let history := (dget hists agent_id).getD []
      let user_content :=
        if file_context ≠ "" then
          file_context ++ "\n\nUser Question: " ++ msg.message
        else msg.message
      some (history ++ [{ role := "user", content := user_content }])
    | none => none
  else none

/-- Shallow embedding of the `/api/chat` handler `chat` (src/chatbot/main.py
lines 383-466).  Inputs that the handler reads from the outside world are
passed explicitly: `file_context` is the string computed from the session's
uploaded files ("" when there is no file processor), `backend` is the outcome
of the `state.anthropic_client.messages.create` call (`Except.error e` when
that call raises, carrying `str(e)`), and `now` stands for
`datetime.now().isoformat()`.  Database writes (`save_message`) only mirror
the in-memory state per session and are outside the modelled state.

Python aliasing in the error path is modelled faithfully: `history =
state.agent_histories.get(agent_id, [])` aliases the stored list when the key
is present, so the `history.append({"role": "user", ...})` executed before
the backend call survives an exception exactly when `agent_id` was already a
key of `agent_histories`; on success the explicit
`state.agent_histories[agent_id] = history` stores both new turns. -/
def chat (st : ChatState) (msg : ChatMessageR) (file_context : String)
    (backend : Except String String) (now : String) :
    ChatState × ChatResponseR :=
  let agent_id := routeAgent msg.force_agent msg.message
  let agent_config := get_agent_config agent_id
  let (conversation, st1) := get_or_create_conversation st msg.session_id
  let conversation := conversation ++
    [{ role := "user", content := msg.message, agentId := none, timestamp := now }]
  let backendPart :
      String × Option (List (String × List HistMsg)) :=
    if st1.agent_instances.contains agent_id then
      match st1.agent_histories with
      | some hists =>
        let history := (dget hists agent_id).getD []
        let user_content :=
          if file_context ≠ "" then
            file_context ++ "\n\nUser Question: " ++ msg.message
          else msg.message
        let history := history ++ [{ role := "user", content := user_content }]
        match backend with
        | Except.ok response_text =>
          (response_text,
           some (dset hists agent_id
             (history ++ [{ role := "assistant", content := response_text }])))
        | Except.error e =>
          ("Error communicating with agent: " ++ e,
           some (if dhas hists agent_id then dset hists agent_id history else hists))
      | none =>
        ("**" ++ agent_config.name ++ "** would help you with: " ++ msg.message
          ++ "\n\n_(Running in demo mode - configure API key for full functionality)_",
         st1.agent_histories)
    else
      ("**" ++ agent_config.name ++ "** would help you with: " ++ msg.message
        ++ "\n\n_(Running in demo mode - configure API key for full functionality)_",
       st1.agent_histories)
  let response_text := backendPart.1
  let conversation := conversation ++
    [{ role := "assistant", content := response_text, agentId := some agent_id,
       timestamp := now }]
  ({ st1 with
      conversations := dset st1.conversations msg.session_id conversation,
      agent_histories := backendPart.2 },
   { response := response_text, agent_id := agent_id,
     agent_name := agent_config.name, session_id := msg.session_id })

/-- Shallow embedding of `ChatRepository.delete_session`
(src/database/chat_repository.py lines 333-348): run the DELETE statement,
return the deleted-row count; any exception is caught, logged and turned into
a return of 0.  `dbExec` is the outcome of `self.db.execute`. -/
def delete_session (dbExec : Except String Nat) : Nat :=
  match dbExec with
  | Except.ok n => n
  | Except.error _ => 0

/-- Shallow embedding of the `/api/conversation/{session_id}` DELETE handler
`clear_conversation` (src/chatbot/main.py lines 478-490): empty the stored
session history when present (and then reset every per-agent completion
history), issue the best-effort durable delete when the database is enabled,
and always answer `("cleared", session_id)`. -/
def clear_conversation (st : ChatState) (session_id : String)
    (dbExec : Except String Nat) : ChatState × (String × String) :=
  let st :=
    if dhas st.conversations session_id then
      { st with
          conversations := dset st.conversations session_id [],
          agent_histories := st.agent_histories.map (fun hs => hs.map (fun p => (p.1, ([] : List HistMsg)))) }
    else st
  let _ := if st.db_enabled then delete_session dbExec else 0
  (st, ("cleared", session_id))

/-- The chat server state right after `_init_agents` ran in API mode with an
API key configured: no conversations, every registry agent instantiated, one
empty completion history per agent (src/chatbot/main.py lines 171-199), the
database disabled. -/
def apiState0 : ChatState :=
  { conversations := [],
    agent_instances := DEVOPS_AGENT_CONFIGS.map (fun p => p.1),
    agent_histories := some (DEVOPS_AGENT_CONFIGS.map (fun p => (p.1, ([] : List HistMsg)))),
    db_enabled := false }

/-- Load-time prompt augmentation `_apply_response_enhancement`
(src/agents/devops_agents.py lines 2525-2532), modelled on the prompt field
of each registry entry: every config of `DEVOPS_AGENT_CONFIGS` carries a
"prompt" key (checked against the source for all 42 entries), so the
`if "prompt" in config` guard is always taken and each prompt gets
`CHATGPT_STYLE_RESPONSE_INSTRUCTIONS` appended.  The module runs this once,
at import time, immediately after the registry literal is built; nothing
touches a prompt afterwards. -/
def applyResponseEnhancement (prompts : List (String × String)) :
    List (String × String) :=
  prompts.map (fun p => (p.1, p.2 ++ CHATGPT_STYLE_RESPONSE_INSTRUCTIONS))

/-! ### Helper lemmas -/

theorem dget_dset_self {α : Type} (d : List (String × α)) (k : String) (v : α) :
    dget (dset d k v) k = some v := by
  induction d with
  | nil => simp [dget, dset]
  | cons p rest ih =>
    obtain ⟨k2, v2⟩ := p
    by_cases h : k2 = k
    · simp [dset, h, dget]
    · simp [dset, h, dget, ih]

theorem dget_eq_none_of_dhas_false {α : Type} {d : List (String × α)} {k : String}
    (h : dhas d k = false) : dget d k = none := by
  unfold dhas at h
  cases hg : dget d k with
  | none => rfl
  | some v => rw [hg] at h; simp at h

theorem char_toNat_ofNat_small {n : Nat} (h : n < 55296) : (Char.ofNat n).toNat = n := by
  simp [Char.ofNat, Char.toNat, Nat.isValidChar, h, Char.ofNatAux, UInt32.toNat, BitVec.ofNatLt]

theorem pyLowerChar_idem (c : Char) : pyLowerChar (pyLowerChar c) = pyLowerChar c := by
  unfold pyLowerChar
  by_cases h : 65 <= c.toNat && c.toNat <= 90
  · rw [if_pos h]
    simp only [Bool.and_eq_true, decide_eq_true_eq] at h
    have ht : (Char.ofNat (c.toNat + 32)).toNat = c.toNat + 32 :=
      char_toNat_ofNat_small (by omega)
    rw [if_neg]
    simp only [ht, Bool.and_eq_true, decide_eq_true_eq]
    omega
  · rw [if_neg h, if_neg h]

theorem pyLower_idem (s : String) : pyLower (pyLower s) = pyLower s := by
  unfold pyLower
  congr 1
  rw [List.map_map]
  exact List.map_congr_left (fun c _ => pyLowerChar_idem c)

theorem pyMaxKeyAux_spec (l : List (String × Nat)) :
    ∀ (bk : String) (bv : Nat),
      (pyMaxKeyAux bk bv l = bk ∧ ∀ p ∈ l, p.2 ≤ bv)
      ∨ ∃ p ∈ l, pyMaxKeyAux bk bv l = p.1 ∧ bv < p.2 ∧ ∀ q ∈ l, q.2 ≤ p.2 := by
  induction l with
  | nil => intro bk bv; left; exact ⟨rfl, by simp⟩
  | cons hd rest ih =>
    intro bk bv
    obtain ⟨k, v⟩ := hd
    by_cases h : bv < v
    · rcases ih k v with ⟨heq, hall⟩ | ⟨p2, hp2, heq, hlt, hall⟩
      · right
        refine ⟨(k, v), by simp, ?_, h, ?_⟩
        · simpa [pyMaxKeyAux, h] using heq
        · intro q hq
          rcases List.mem_cons.mp hq with rfl | hq2
          · exact le_refl _
          · exact hall q hq2
      · right
        refine ⟨p2, List.mem_cons_of_mem _ hp2, ?_, lt_trans h hlt, ?_⟩
        · simpa [pyMaxKeyAux, h] using heq
        · intro q hq
          rcases List.mem_cons.mp hq with rfl | hq2
          · exact le_of_lt hlt
          · exact hall q hq2
    · rcases ih bk bv with ⟨heq, hall⟩ | ⟨p2, hp2, heq, hlt, hall⟩
      · left
        refine ⟨by simpa [pyMaxKeyAux, h] using heq, ?_⟩
        intro q hq
        rcases List.mem_cons.mp hq with rfl | hq2
        · exact Nat.le_of_not_lt h
        · exact hall q hq2
      · right
        refine ⟨p2, List.mem_cons_of_mem _ hp2, ?_, hlt, ?_⟩
        · simpa [pyMaxKeyAux, h] using heq
        · intro q hq
          rcases List.mem_cons.mp hq with rfl | hq2
          · exact le_of_lt (lt_of_le_of_lt (Nat.le_of_not_lt h) hlt)
          · exact hall q hq2

theorem pyMaxKey_spec {l : List (String × Nat)} {m : String}
    (h : pyMaxKey l = some m) : ∃ p ∈ l, p.1 = m ∧ ∀ q ∈ l, q.2 ≤ p.2 := by
  cases l with
  | nil => simp [pyMaxKey] at h
  | cons hd rest =>
    obtain ⟨k, v⟩ := hd
    simp only [pyMaxKey, Option.some.injEq] at h
    rcases pyMaxKeyAux_spec rest k v with ⟨heq, hall⟩ | ⟨p2, hp2, heq, hlt, hall⟩
    · refine ⟨(k, v), by simp, by rw [← h, heq], ?_⟩
      intro q hq
      rcases List.mem_cons.mp hq with rfl | hq2
      · exact le_refl _
      · exact hall q hq2
    · refine ⟨p2, List.mem_cons_of_mem _ hp2, by rw [← h, heq], ?_⟩
      intro q hq
      rcases List.mem_cons.mp hq with rfl | hq2
      · exact le_of_lt hlt
      · exact hall q hq2

theorem pyMaxKey_eq_none {l : List (String × Nat)} (h : pyMaxKey l = none) : l = [] := by
  cases l with
  | nil => rfl
  | cons hd rest => obtain ⟨k, v⟩ := hd; simp [pyMaxKey] at h

theorem mem_buildScores_of {cfgs : List (String × AgentConfig)} {ql : String}
    {aid : String} {cfg : AgentConfig}
    (hmem : (aid, cfg) ∈ cfgs) (hne : aid ≠ "general") (hpos : 0 < scoreOf cfg ql) :
    (aid, scoreOf cfg ql) ∈ buildScores cfgs ql := by
  induction cfgs with
  | nil => cases hmem
  | cons hd rest ih =>
    obtain ⟨a, c⟩ := hd
    rcases List.mem_cons.mp hmem with heq | htail
    · injection heq with h1 h2
      subst h1; subst h2
      simp only [buildScores, if_neg hne, if_pos hpos]
      exact List.mem_cons_self _ _
    · have hmem2 := ih htail
      by_cases hg : a = "general"
      · simpa [buildScores, hg] using hmem2
      · by_cases hs : 0 < scoreOf c ql
        · simp only [buildScores, if_neg hg, if_pos hs]
          exact List.mem_cons_of_mem _ hmem2
        · simpa [buildScores, hg, hs] using hmem2

theorem of_mem_buildScores {cfgs : List (String × AgentConfig)} {ql : String}
    {aid : String} {s : Nat} (h : (aid, s) ∈ buildScores cfgs ql) :
    ∃ cfg, (aid, cfg) ∈ cfgs ∧ aid ≠ "general" ∧ s = scoreOf cfg ql ∧ 0 < s := by
  induction cfgs with
  | nil => cases h
  | cons hd rest ih =>
    obtain ⟨a, c⟩ := hd
    by_cases hg : a = "general"
    · rw [buildScores, if_pos hg] at h
      obtain ⟨cfg, h1, h2, h3, h4⟩ := ih h
      exact ⟨cfg, List.mem_cons_of_mem _ h1, h2, h3, h4⟩
    · by_cases hs : 0 < scoreOf c ql
      · rw [buildScores, if_neg hg, if_pos hs] at h
        rcases List.mem_cons.mp h with heq | htail
        · injection heq with h1 h2
          subst h1
          exact ⟨c, List.mem_cons_self _ _, hg, h2.symm ▸ rfl, h2 ▸ hs⟩
        · obtain ⟨cfg, h1, h2, h3, h4⟩ := ih htail
          exact ⟨cfg, List.mem_cons_of_mem _ h1, h2, h3, h4⟩
      · rw [buildScores, if_neg hg, if_neg hs] at h
        obtain ⟨cfg, h1, h2, h3, h4⟩ := ih h
        exact ⟨cfg, List.mem_cons_of_mem _ h1, h2, h3, h4⟩

theorem buildScores_eq_nil {cfgs : List (String × AgentConfig)} {ql : String}
    (h : buildScores cfgs ql = []) :
    ∀ p ∈ cfgs, p.1 ≠ "general" → scoreOf p.2 ql = 0 := by
  induction cfgs with
  | nil => intro p hp; cases hp
  | cons hd rest ih =>
    obtain ⟨a, c⟩ := hd
    intro p hp hne
    by_cases hg : a = "general"
    · rw [buildScores, if_pos hg] at h
      rcases List.mem_cons.mp hp with rfl | htail
      · exact absurd hg hne
      · exact ih h p htail hne
    · by_cases hs : 0 < scoreOf c ql
      · rw [buildScores, if_neg hg, if_pos hs] at h
        cases h
      · rw [buildScores, if_neg hg, if_neg hs] at h
        rcases List.mem_cons.mp hp with rfl | htail
        · exact Nat.eq_zero_of_not_pos hs
        · exact ih h p htail hne

/-! ### Claim theorems -/

/-- C3.  For every query string, `route(query, None)` (that is,
`get_agent_for_query`) lowercases the query, scores every agent other than
the "general" fallback by `scoreOf` (a weight of 2 per keyword occurring as a
substring of the lowercased query plus a bonus of 3 per keyword equal to one
of its whitespace-split tokens), returns an agent whose total score is
maximal among all non-"general" agents, and returns "general" exactly when no
agent scores above zero. -/
theorem get_agent_for_query_spec (q : String) :
    routeAgent none q = get_agent_for_query q ∧
    ((get_agent_for_query q = "general" ∧
        ∀ e ∈ DEVOPS_AGENT_CONFIGS, e.1 ≠ "general" → scoreOf e.2 (pyLower q) = 0)
      ∨ (∃ e ∈ DEVOPS_AGENT_CONFIGS,
          e.1 = get_agent_for_query q ∧ e.1 ≠ "general" ∧
          0 < scoreOf e.2 (pyLower q) ∧
          ∀ e2 ∈ DEVOPS_AGENT_CONFIGS, e2.1 ≠ "general" →
            scoreOf e2.2 (pyLower q) ≤ scoreOf e.2 (pyLower q))) := by
  refine ⟨rfl, ?_⟩
  cases hmk : pyMaxKey (buildScores DEVOPS_AGENT_CONFIGS (pyLower q)) with
  | none =>
    left
    have hnil := pyMaxKey_eq_none hmk
    constructor
    · simp [get_agent_for_query, hmk]
    · exact buildScores_eq_nil hnil
  | some m =>
    right
    have hr : get_agent_for_query q = m := by simp [get_agent_for_query, hmk]
    obtain ⟨p, hp, hpm, hmax⟩ := pyMaxKey_spec hmk
    obtain ⟨aid, s⟩ := p
    obtain ⟨cfg, hcfg, hne, hs, hpos⟩ := of_mem_buildScores hp
    refine ⟨(aid, cfg), hcfg, ?_, hne, ?_, ?_⟩
    · rw [hr]; exact hpm
    · show 0 < scoreOf cfg (pyLower q)
      rw [← hs]; exact hpos
    · intro e2 he2 hne2
      obtain ⟨a2, c2⟩ := e2
      by_cases h2 : 0 < scoreOf c2 (pyLower q)
      · have hmem2 := mem_buildScores_of he2 hne2 h2
        have h3 := hmax _ hmem2
        show scoreOf c2 (pyLower q) ≤ scoreOf cfg (pyLower q)
        rw [← hs]
        exact h3
      · have : scoreOf c2 (pyLower q) = 0 := Nat.eq_zero_of_not_pos h2
        simp [this]

/-- C6.  The concrete query "show me a PromQL query for CPU" routes to the
prometheus agent: five agents tie with score 5 (prometheus, jaeger, thanos,
mysql, goldilocks) and Python `max` keeps the first of equals in the
registry's insertion order, which is prometheus. -/
theorem promql_query_routes_to_prometheus :
    get_agent_for_query "show me a PromQL query for CPU" = "prometheus" := by
  decide

/-- C10.  Routing is case-insensitive: the router lowercases its input
first, and lowercasing is idempotent, so a query and its lowercased form
route to the same agent. -/
theorem get_agent_for_query_case_insensitive (q : String) :
    get_agent_for_query q = get_agent_for_query (pyLower q) := by
  unfold get_agent_for_query
  rw [pyLower_idem]

/-- C4.  Forced override precedence: when the request carries a
`force_agent` that is a key of the agent registry, the chat pipeline selects
exactly that agent, regardless of the query's content. -/
theorem chat_forced_valid_agent_selected (st : ChatState) (msg : ChatMessageR)
    (file_context : String) (backend : Except String String) (now : String)
    (f : String) (hf : msg.force_agent = some f)
    (hkey : dhas DEVOPS_AGENT_CONFIGS f = true) :
    (chat st msg file_context backend now).2.agent_id = f := by
  have hid : (chat st msg file_context backend now).2.agent_id
      = routeAgent msg.force_agent msg.message := rfl
  have hempty : dhas DEVOPS_AGENT_CONFIGS "" = false := by decide
  have hne : f ≠ "" := by
    intro h
    rw [h] at hkey
    rw [hempty] at hkey
    cases hkey
  rw [hid, hf]
  simp [routeAgent, hne, hkey]

/-- C4 witness: the query would route to prometheus by keywords, but the
forced id "docker" (a registry key) wins. -/
theorem chat_forced_valid_agent_selected_witness :
    (chat apiState0
      { message := "show me a PromQL query for CPU", session_id := "s",
        force_agent := some "docker" }
      "" (Except.ok "r") "t").2.agent_id = "docker" :=
  chat_forced_valid_agent_selected apiState0
    { message := "show me a PromQL query for CPU", session_id := "s",
      force_agent := some "docker" }
    "" (Except.ok "r") "t" "docker" rfl (by decide)

/-- C5.  A `force_agent` that is not a key of the registry silently falls
through to keyword routing: the pipeline selects the same agent as it would
with no forced agent at all (the embedded handler is total, so no error is
raised). -/
theorem chat_unknown_forced_agent_falls_through (st : ChatState)
    (msg : ChatMessageR) (file_context : String) (backend : Except String String)
    (now : String) (f : String) (hf : msg.force_agent = some f)
    (hkey : dhas DEVOPS_AGENT_CONFIGS f = false) :
    (chat st msg file_context backend now).2.agent_id
        = get_agent_for_query msg.message ∧
    (chat st msg file_context backend now).2.agent_id
        = (chat st { msg with force_agent := none } file_context backend now).2.agent_id := by
  have hgen : ∀ m : ChatMessageR,
      (chat st m file_context backend now).2.agent_id
        = routeAgent m.force_agent m.message := fun _ => rfl
  have hroute : routeAgent msg.force_agent msg.message = get_agent_for_query msg.message := by
    rw [hf]
    simp [routeAgent, hkey]
  refine ⟨(hgen msg).trans hroute, ?_⟩
  rw [hgen msg, hgen { msg with force_agent := none }, hroute]
  simp [routeAgent]

/-- C5 witness: the unknown forced id "quantum" is ignored and the query
routes by keywords to prometheus, exactly as without a forced agent. -/
theorem chat_unknown_forced_agent_falls_through_witness :
    (chat apiState0
      { message := "show me a PromQL query for CPU", session_id := "s",
        force_agent := some "quantum" }
      "" (Except.ok "r") "t").2.agent_id
        = get_agent_for_query "show me a PromQL query for CPU" ∧
    (chat apiState0
      { message := "show me a PromQL query for CPU", session_id := "s",
        force_agent := some "quantum" }
      "" (Except.ok "r") "t").2.agent_id
        = (chat apiState0
            { message := "show me a PromQL query for CPU", session_id := "s",
              force_agent := none }
            "" (Except.ok "r") "t").2.agent_id :=
  chat_unknown_forced_agent_falls_through apiState0
    { message := "show me a PromQL query for CPU", session_id := "s",
      force_agent := some "quantum" }
    "" (Except.ok "r") "t" "quantum" rfl (by decide)

/-- C1 counterexample.  A chat request against the freshly initialised API
state whose backend call fails grows the session's conversation history by
two messages, not one: the handler catches the exception, turns it into the
response text, and still appends an assistant message to the history. -/
theorem chat_backend_failure_counterexample :
    ¬ (((dget (chat apiState0
          { message := "hello", session_id := "s1", force_agent := none }
          "" (Except.error "boom") "t0").1.conversations "s1").getD []).length
        = ((dget apiState0.conversations "s1").getD []).length + 1)
    ∧ (((dget (chat apiState0
          { message := "hello", session_id := "s1", force_agent := none }
          "" (Except.error "boom") "t0").1.conversations "s1").getD []).map Msg.role
        = ["user", "assistant"]) := by
  constructor
  · decide
  · decide

/-- C1 amended.  When the completion backend call fails, the session's
conversation history grows by exactly two messages: the user message, and an
assistant message whose content is the error string
"Error communicating with agent: " followed by the cause. -/
theorem chat_backend_failure_appends_error_reply (st : ChatState)
    (msg : ChatMessageR) (file_context e now : String)
    (hists : List (String × List HistMsg))
    (hh : st.agent_histories = some hists)
    (hi : st.agent_instances.contains (routeAgent msg.force_agent msg.message) = true) :
    (dget (chat st msg file_context (Except.error e) now).1.conversations
        msg.session_id).getD []
      = (dget st.conversations msg.session_id).getD []
        ++ [{ role := "user", content := msg.message, agentId := none, timestamp := now },
            { role := "assistant",
              content := "Error communicating with agent: " ++ e,
              agentId := some (routeAgent msg.force_agent msg.message),
              timestamp := now }] := by
  have hi2 : routeAgent msg.force_agent msg.message ∈ st.agent_instances := by
    simpa using hi
  unfold chat get_or_create_conversation
  cases hc : dget st.conversations msg.session_id with
  | some c => simp [hc, hh, hi2, dget_dset_self]
  | none => simp [hc, hh, hi2, dget_dset_self]

/-- C1 witness: the amended statement evaluated on the fresh API state, the
session "s1" and a backend failure "boom". -/
theorem chat_backend_failure_appends_error_reply_witness :
    (dget (chat apiState0
        { message := "hello", session_id := "s1", force_agent := none }
        "" (Except.error "boom") "t0").1.conversations "s1").getD []
      = [{ role := "user", content := "hello", agentId := none, timestamp := "t0" },
         { role := "assistant", content := "Error communicating with agent: boom",
           agentId := some "general", timestamp := "t0" }] := by
  have h := chat_backend_failure_appends_error_reply apiState0
    { message := "hello", session_id := "s1", force_agent := none }
    "" "boom" "t0" _ rfl (by decide)
  rw [h]
  decide

/-- C2.  Cross-session leakage through the shared per-agent completion
histories, evaluated at a concrete failing input: starting from the fresh
API state, a successful chat turn in session "A" (routed to the docker
agent) makes a later request in session "B" with the same query send
session A's user and assistant turns to the completion backend, although
session B's own conversation store is untouched; and clearing session "A"
resets the history sent on B's behalf as well.  `agent_histories` is keyed
by agent id only, so the turn history sent to the backend is shared by all
sessions. -/
theorem chat_cross_session_backend_history_leak :
    (backendMessagesFor apiState0
        { message := "docker build help", session_id := "B", force_agent := none } ""
      = some [{ role := "user", content := "docker build help" }])
    ∧ (backendMessagesFor
        (chat apiState0
          { message := "docker build help", session_id := "A", force_agent := none }
          "" (Except.ok "sure") "t1").1
        { message := "docker build help", session_id := "B", force_agent := none } ""
      = some [{ role := "user", content := "docker build help" },
              { role := "assistant", content := "sure" },
              { role := "user", content := "docker build help" }])
    ∧ (dget (chat apiState0
          { message := "docker build help", session_id := "A", force_agent := none }
          "" (Except.ok "sure") "t1").1.conversations "B"
      = none)
    ∧ (backendMessagesFor
        (clear_conversation
          (chat apiState0
            { message := "docker build help", session_id := "A", force_agent := none }
            "" (Except.ok "sure") "t1").1
          "A" (Except.ok 2)).1
        { message := "docker build help", session_id := "B", force_agent := none } ""
      = some [{ role := "user", content := "docker build help" }]) := by
  refine ⟨by decide, by decide, by decide, by decide⟩

/-- C7.  Registry lookup with an unknown agent id does not produce a
not-found result: `get_agent_config` falls back to the "general" agent's
definition, and in consequence the `/api/agents/\x7bagent_id\x7d` endpoint's 404
"Agent not found" branch is unreachable — the endpoint answers 200 with the
general agent's details for the unknown id "nonexistent". -/
theorem get_agent_config_unknown_returns_general :
    dhas DEVOPS_AGENT_CONFIGS "nonexistent" = false
    ∧ get_agent_config "nonexistent" = generalConfig
    ∧ ("general", get_agent_config "nonexistent") ∈ DEVOPS_AGENT_CONFIGS
    ∧ get_agent_endpoint "nonexistent"
        = Except.ok ("nonexistent", "GeneralDevOpsAgent") := by
  refine ⟨by decide, by decide, by decide, by rfl⟩

/-- C8.  Clearing a session always empties that session's in-memory history
and always answers ("cleared", session id), whatever the outcome of the
durable delete; the repository's `delete_session` itself swallows any
database failure and returns 0 deleted rows instead of raising. -/
theorem clear_conversation_always_clears (st : ChatState) (session_id : String)
    (dbExec : Except String Nat) :
    ((dget (clear_conversation st session_id dbExec).1.conversations
        session_id).getD [] = [])
    ∧ (clear_conversation st session_id dbExec).2 = ("cleared", session_id)
    ∧ (∀ e : String, delete_session (Except.error e) = 0) := by
  refine ⟨?_, ?_, fun e => rfl⟩
  · unfold clear_conversation
    by_cases h : dhas st.conversations session_id = true
    · simp [h, dget_dset_self]
    · have h2 : dhas st.conversations session_id = false := by
        cases hb : dhas st.conversations session_id
        · rfl
        · exact absurd hb h
      simp [h2, dget_eq_none_of_dhas_false h2]
  · unfold clear_conversation
    by_cases h : dhas st.conversations session_id = true <;> simp [h]

/-- C9.  The load-time prompt augmentation appends the single standard
formatting-instructions suffix to every agent's base prompt exactly once:
for every agent id, the final prompt stored by `applyResponseEnhancement` is
that agent's base prompt with `CHATGPT_STYLE_RESPONSE_INSTRUCTIONS` appended,
and nothing else; the enhancement runs once at module load and no runtime
path rewrites a prompt. -/
theorem applyResponseEnhancement_appends_suffix_once
    (prompts : List (String × String)) (agent_id : String) :
    dget (applyResponseEnhancement prompts) agent_id
      = (dget prompts agent_id).map
          (fun base => base ++ CHATGPT_STYLE_RESPONSE_INSTRUCTIONS) := by
  induction prompts with
  | nil => rfl
  | cons p rest ih =>
    obtain ⟨k, v⟩ := p
    by_cases h : k = agent_id
    · simp [applyResponseEnhancement, dget, h]
    · simp only [applyResponseEnhancement, List.map_cons, dget, if_neg h]
      simpa [applyResponseEnhancement] using ih
